import Mathlib

/-!
Verification model of the Quotation Document Artifact Resolution and
Regeneration subsystem of the komacut/cutbend backend.

The modelled source is the quotation-PDF serving logic registered in
index.js after the mongoose connection: the helper handleQuotationPDF
(existence fast path, five-stage record locator, PDF regeneration,
pointer update) and the quotationPDFInterceptor middleware (bounded
wait for the handler to become ready).  Mongo collections are modelled
as Lean lists; findOne returns the first element in list order;
findOne with a descending createdAt sort returns an element of maximal
createdAt.  JavaScript falsy defaulting (x || d) is modelled on
optional fields, treating the empty string and 0 as falsy.  The
external pdfService.generateQuotationPDF collaborator is a parameter
of the handler (see Builder below).
-/

namespace QPdf

/-! ## Case folding (ASCII, as used by the regex i flag) -/

/-- ASCII lower-casing of a character, as toLowerCase / the regex
case-insensitive flag behaves on ASCII filenames. -/
def lowCh (c : Char) : Char :=
  if 'A' ≤ c && c ≤ 'Z' then Char.ofNat (c.toNat + 32) else c

/-! ## A small JavaScript-regex engine

The fuzzy pointer-match strategy builds
new RegExp(escapedFilename, 'i') and lets MongoDB test it against the
stored quotationPdf value.  We model the fragment of JavaScript regex
syntax that can result from escaping an arbitrary filename: literal
characters, backslash escapes, the dot wildcard and the postfix
quantifiers * + ?.  Constructs that only arise from UNescaped
metacharacters with structural meaning (groups, classes, alternation,
anchors, counted repetition) make the pattern unsupported, which the
engine reports as a failed parse; a dangling quantifier or trailing
backslash (a syntax error in JavaScript) likewise yields a failed
parse.  This keeps the engine honest: if the escaping routine missed
any metacharacter, the substring-semantics theorem below would fail. -/

/-- Regex metacharacters escaped by the source:
filename.replace of the class . * + ? ^ $ braces parens pipe
brackets backslash with a backslash prefix. -/
def metaChars : List Char :=
  ['.', '*', '+', '?', '^', '$', '\x7b', '\x7d', '(', ')', '|', '[', ']', '\\']

/-- The escaping applied to the inbound filename before it is used as a
regex pattern (each metacharacter gets a backslash prefix). -/
def escChars : List Char → List Char
  | [] => []
  | c :: r => if c ∈ metaChars then '\\' :: c :: escChars r else c :: escChars r

/-- filename.replace(metacharacter class, backslash-prefix) from the
fuzzy-match strategy of handleQuotationPDF. -/
def jsEscape (s : String) : String := String.mk (escChars s.data)

/-- Base (single-character) regex atoms. -/
inductive RBase where
  | lit (c : Char)
  | anyCh
deriving DecidableEq

/-- Regex tokens: a base atom, optionally under a star or option
quantifier (plus is desugared to atom-then-star during parsing). -/
inductive RTok where
  | one (b : RBase)
  | star (b : RBase)
  | opt (b : RBase)
deriving DecidableEq

/-- Postfix quantifier characters. -/
def quantChars : List Char := ['*', '+', '?']

/-- Metacharacters that are structural when unescaped and that this
engine does not support (an unescaped occurrence fails the parse). -/
def badBare : List Char := ['(', ')', '[', ']', '\x7b', '\x7d', '^', '$', '|']

/-- First lexing phase: resolve backslash escapes and classify each
remaining character as an atom or a quantifier character. -/
def lexemes : List Char → Option (List (Sum RBase Char))
  | [] => some []
  | c :: r =>
    if c = '\\' then
      match r with
      | [] => none
      | d :: r2 => (lexemes r2).map (fun l => Sum.inl (RBase.lit d) :: l)
    else if c = '.' then (lexemes r).map (fun l => Sum.inl RBase.anyCh :: l)
    else if c ∈ quantChars then (lexemes r).map (fun l => Sum.inr c :: l)
    else if c ∈ badBare then none
    else (lexemes r).map (fun l => Sum.inl (RBase.lit c) :: l)

/-- Token list produced by a quantifier character applied to an atom. -/
def quantToks (b : RBase) (q : Char) : List RTok :=
  if q = '*' then [RTok.star b]
  else if q = '+' then [RTok.one b, RTok.star b]
  else [RTok.opt b]

/-- Second phase: attach postfix quantifiers to the atom before them; a
quantifier with no preceding atom (or following another quantifier) is
a syntax error. -/
def combine : List (Sum RBase Char) → Option (List RTok)
  | [] => some []
  | Sum.inr _ :: _ => none
  | [Sum.inl b] => some [RTok.one b]
  | Sum.inl b :: Sum.inr q :: r2 => (combine r2).map (fun l => quantToks b q ++ l)
  | Sum.inl b :: Sum.inl b2 :: r2 =>
      (combine (Sum.inl b2 :: r2)).map (fun l => RTok.one b :: l)

/-- Parse a pattern string into tokens. -/
def tokenize (p : List Char) : Option (List RTok) := (lexemes p).bind combine

/-- Case-insensitive match of a base atom against one character. -/
def baseMatch : RBase → Char → Bool
  | RBase.lit d, c => lowCh d == lowCh c
  | RBase.anyCh, _ => true

/-- Fuelled backtracking matcher: does some prefix of the subject match
the token list?  The fuel only needs to dominate the number of
pattern-or-subject-consuming steps. -/
def mtchF : Nat → List RTok → List Char → Bool
  | 0, _, _ => false
  | _ + 1, [], _ => true
  | _ + 1, RTok.one _ :: _, [] => false
  | n + 1, RTok.one b :: ps, c :: s => baseMatch b c && mtchF n ps s
  | n + 1, RTok.star b :: ps, s =>
      mtchF n ps s ||
        (match s with
         | [] => false
         | c :: s2 => baseMatch b c && mtchF n (RTok.star b :: ps) s2)
  | n + 1, RTok.opt b :: ps, s =>
      mtchF n ps s ||
        (match s with
         | [] => false
         | c :: s2 => baseMatch b c && mtchF n ps s2)

/-- Anchored-at-start match with sufficient fuel. -/
def mtch (ps : List RTok) (s : List Char) : Bool :=
  mtchF (ps.length + s.length + 1) ps s

/-- Unanchored search, scanning start positions left to right, as
RegExp.test does. -/
def search (ps : List RTok) : List Char → Bool
  | [] => mtch ps []
  | c :: s => mtch ps (c :: s) || search ps s

/-- RegExp(pattern, i-flag).test(subject): parse the pattern and search
the subject; an unsupported or ill-formed pattern matches nothing. -/
def regexTestCI (pattern subject : String) : Bool :=
  match tokenize pattern.data with
  | none => false
  | some ps => search ps subject.data

/-- Case-insensitive starts-with on character lists (needle first). -/
def swCI : List Char → List Char → Bool
  | [], _ => true
  | _ :: _, [] => false
  | d :: w, c :: s => (lowCh d == lowCh c) && swCI w s

/-- Case-insensitive substring containment: hay contains needle. -/
def containsCI : List Char → List Char → Bool
  | [], w => swCI w []
  | c :: s, w => swCI w (c :: s) || containsCI s w

/-! ## Data model

Fields of the Quotation and Inquiry mongoose schemas that the
artifact-resolution code reads or writes.  oid models the Mongo _id
(compared via toString in the source); createdAt is an epoch
millisecond; optional schema fields are Option-typed, with the
JavaScript falsy-defaulting modelled by jsOrStr / jsOrNat below. -/

/-- One line entry of Quotation.items. -/
structure QItem where
  partRef : Option String
  material : Option String
  thickness : Option String
  quantity : Option Nat
  unitPrice : Option Nat
  remark : Option String
deriving DecidableEq

/-- One entry of Inquiry.parts. -/
structure IPart where
  partRef : Option String
  material : Option String
  thickness : Option String
  quantity : Option Nat
  remarks : Option String
deriving DecidableEq

/-- The fields of a Quotation document used by handleQuotationPDF. -/
structure Quotation where
  oid : String
  inquiryId : String
  quotationPdf : Option String
  items : List QItem
  totalAmount : Nat
  validUntil : Option Nat
  terms : Option String
  createdAt : Int
deriving DecidableEq

/-- The fields of an Inquiry document used by handleQuotationPDF. -/
structure Inquiry where
  oid : String
  inquiryNumber : String
  parts : List IPart
deriving DecidableEq

/-- The two collections the handler queries. -/
structure DB where
  quotations : List Quotation
  inquiries : List Inquiry
deriving DecidableEq

/-- JavaScript defaulting x || d on an optional string field (undefined
and the empty string are falsy). -/
def jsOrStr (o : Option String) (d : String) : String :=
  match o with
  | none => d
  | some s => if s = "" then d else s

/-- JavaScript defaulting x || d on an optional numeric field
(undefined and 0 are falsy). -/
def jsOrNat (o : Option Nat) (d : Nat) : Nat :=
  match o with
  | none => d
  | some n => if n = 0 then d else n

/-! ## Filename parsers of the locator

Each mirrors one of the unanchored regexes of handleQuotationPDF.  The
scan tries every start position left to right; at a fixed start the
greedy quantifiers of these particular patterns admit no productive
backtracking (a digit run must be followed by a literal non-digit, a
non-underscore run by an underscore), so maximal-run matching is
exact. -/

/-- Is c an ASCII decimal digit? -/
def digitCh (c : Char) : Bool := '0' ≤ c && c ≤ '9'

/-- Split off the maximal leading digit run. -/
def takeDigits : List Char → List Char × List Char
  | [] => ([], [])
  | c :: r =>
    if digitCh c then
      let p := takeDigits r
      (c :: p.1, p.2)
    else ([], c :: r)

/-- Numeric value of a digit run (parseInt on the capture). -/
def digitsVal (l : List Char) : Nat :=
  l.foldl (fun a c => 10 * a + (c.toNat - 48)) 0

/-- Strip a literal from the front of a list, returning the rest. -/
def stripPre : List Char → List Char → Option (List Char)
  | [], s => some s
  | _ :: _, [] => none
  | p :: ps, c :: s => if p = c then stripPre ps s else none

/-- Left-to-right scan of all start positions with a positional
matcher. -/
def scanP (f : List Char → Option α) : List Char → Option α
  | [] => f []
  | c :: r =>
    match f (c :: r) with
    | some v => some v
    | none => scanP f r

/-- Positional matcher for quotation-(digits)- : the captured digits. -/
def matchHyphenAt (s : List Char) : Option Nat :=
  match stripPre "quotation-".data s with
  | none => none
  | some r =>
    match takeDigits r with
    | ([], _) => none
    | (ds, rest) =>
      match rest with
      | '-' :: _ => some (digitsVal ds)
      | _ => none

/-- Timestamp extracted from a quotation-TIMESTAMP-RANDOM.pdf shaped
filename (the regex is unanchored and does not require the suffix). -/
def parseHyphenTs (s : String) : Option Nat := scanP matchHyphenAt s.data

/-- Positional matcher for quotation_(INQdigits)_(digits).pdf : the
captured inquiry number and timestamp. -/
def matchInqAt (s : List Char) : Option (String × Nat) :=
  match stripPre "quotation_INQ".data s with
  | none => none
  | some r =>
    match takeDigits r with
    | ([], _) => none
    | (d1, rest) =>
      match rest with
      | '_' :: r2 =>
        match takeDigits r2 with
        | ([], _) => none
        | (d2, rest2) =>
          match stripPre ".pdf".data rest2 with
          | none => none
          | some _ => some (String.mk ('I' :: 'N' :: 'Q' :: d1), digitsVal d2)
      | _ => none

/-- Inquiry number and timestamp extracted from a
quotation_INQUIRYNUMBER_TIMESTAMP.pdf shaped filename. -/
def parseInqToken (s : String) : Option (String × Nat) := scanP matchInqAt s.data

/-- Split off the maximal leading run of non-underscore characters. -/
def takeNonUnd : List Char → List Char × List Char
  | [] => ([], [])
  | c :: r =>
    if c = '_' then ([], c :: r)
    else
      let p := takeNonUnd r
      (c :: p.1, p.2)

/-- Positional matcher for quotation_[nonunderscore]_(digits).pdf : the
captured timestamp of the generated-format fallback. -/
def matchGenAt (s : List Char) : Option Nat :=
  match stripPre "quotation_".data s with
  | none => none
  | some r =>
    match takeNonUnd r with
    | ([], _) => none
    | (_, rest) =>
      match rest with
      | '_' :: r2 =>
        match takeDigits r2 with
        | ([], _) => none
        | (ds, rest2) =>
          match stripPre ".pdf".data rest2 with
          | none => none
          | some _ => some (digitsVal ds)
      | _ => none

/-- Timestamp extracted from the generated quotation_REF_TIMESTAMP.pdf
shape. -/
def parseGenTs (s : String) : Option Nat := scanP matchGenAt s.data

/-! ## The Record Locator cascade -/

/-- Strategy 1: exact pointer match,
Quotation.findOne with quotationPdf equal to the filename. -/
def strategy1 (db : DB) (filename : String) : Option Quotation :=
  db.quotations.find? (fun q => q.quotationPdf == some filename)

/-- The fuzzy comparison: the stored pointer tested against the
case-insensitive regex built from the escaped filename. -/
def fuzzyTest (ptr filename : String) : Bool :=
  regexTestCI (jsEscape filename) ptr

/-- Strategy 2: fuzzy pointer match, Quotation.findOne with a
case-insensitive regex of the escaped filename on quotationPdf (a
document without the field never matches a regex query). -/
def strategy2 (db : DB) (filename : String) : Option Quotation :=
  db.quotations.find? (fun q =>
    match q.quotationPdf with
    | some p => fuzzyTest p filename
    | none => false)

/-- Strategy 3: embedded inquiry-number match.  Parse
quotation_INQ..._ts.pdf, find the Inquiry by inquiryNumber, then find
the Quotation whose inquiryId is that inquiry's id string, falling
back to the inquiry number string; without an Inquiry record the
strategy fails. -/
def strategy3 (db : DB) (filename : String) : Option Quotation :=
  match parseInqToken filename with
  | none => none
  | some (inqNum, _) =>
    match db.inquiries.find? (fun i => i.inquiryNumber == inqNum) with
    | none => none
    | some inq =>
      match db.quotations.find? (fun q => q.inquiryId == inq.oid) with
      | some q => some q
      | none => db.quotations.find? (fun q => q.inquiryId == inqNum)

/-- Is the quotation's creation time within w milliseconds of ts? -/
def inWindow (ts : Nat) (w : Int) (q : Quotation) : Bool :=
  (ts : Int) - w ≤ q.createdAt && q.createdAt ≤ (ts : Int) + w

/-- Accumulator step keeping the quotation with the larger createdAt
(the earlier element on ties, matching a stable descending sort). -/
def latestStep (acc : Option Quotation) (q : Quotation) : Option Quotation :=
  match acc with
  | none => some q
  | some a => if a.createdAt < q.createdAt then some q else some a

/-- findOne sorted by createdAt descending: an element of maximal
createdAt, none only on the empty candidate list. -/
def latestIn (l : List Quotation) : Option Quotation := l.foldl latestStep none

/-- Strategy 4: timestamp proximity for quotation-TIMESTAMP-RANDOM.pdf,
createdAt within 5 seconds, most recent first. -/
def strategy4 (db : DB) (filename : String) : Option Quotation :=
  match parseHyphenTs filename with
  | none => none
  | some ts => latestIn (db.quotations.filter (inWindow ts 5000))

/-- Strategy 5: timestamp proximity for the generated
quotation_REF_TIMESTAMP.pdf shape, createdAt within 10 seconds, most
recent first. -/
def strategy5 (db : DB) (filename : String) : Option Quotation :=
  match parseGenTs filename with
  | none => none
  | some ts => latestIn (db.quotations.filter (inWindow ts 10000))

/-- The locator cascade of handleQuotationPDF: each stage runs only
when every earlier stage returned nothing.  The second component
counts the stages attempted. -/
def locateQuotation (db : DB) (filename : String) : Option Quotation × Nat :=
  match strategy1 db filename with
  | some q => (some q, 1)
  | none =>
    match strategy2 db filename with
    | some q => (some q, 2)
    | none =>
      match strategy3 db filename with
      | some q => (some q, 3)
      | none =>
        match strategy4 db filename with
        | some q => (some q, 4)
        | none =>
          match strategy5 db filename with
          | some q => (some q, 5)
          | none => (none, 5)

/-! ## Inquiry resolution and PDF input shaping -/

/-- mongoose.Types.ObjectId.isValid on the stored inquiryId string
(a 24-character hex string). -/
def isValidObjectId (s : String) : Bool :=
  s.length = 24 &&
    s.data.all (fun c =>
      digitCh c || ('a' ≤ c && c ≤ 'f') || ('A' ≤ c && c ≤ 'F'))

/-- Inquiry lookup for a located quotation: findById when inquiryId is
a valid ObjectId, otherwise findOne by inquiryNumber. -/
def findInquiryFor (db : DB) (q : Quotation) : Option Inquiry :=
  if isValidObjectId q.inquiryId then
    db.inquiries.find? (fun i => i.oid == q.inquiryId)
  else
    db.inquiries.find? (fun i => i.inquiryNumber == q.inquiryId)

/-- One part row of the flattened pricing view handed to the builder. -/
structure PdfRow where
  partRef : String
  material : String
  thickness : String
  quantity : Nat
  price : Nat
  remarks : String
deriving DecidableEq

/-- Row derived from a Quotation item (price from unitPrice). -/
def shapeItemRow (it : QItem) : PdfRow :=
  { partRef := jsOrStr it.partRef ""
    material := jsOrStr it.material "Zintec"
    thickness := jsOrStr it.thickness "1.5"
    quantity := jsOrNat it.quantity 1
    price := jsOrNat it.unitPrice 0
    remarks := jsOrStr it.remark "" }

/-- Row derived from an Inquiry part (price forced to zero). -/
def shapePartRow (p : IPart) : PdfRow :=
  { partRef := jsOrStr p.partRef ""
    material := jsOrStr p.material "Zintec"
    thickness := jsOrStr p.thickness "1.5"
    quantity := jsOrNat p.quantity 1
    price := 0
    remarks := jsOrStr p.remarks "" }

/-- The flattened quotation view handed to the Document Builder. -/
structure PdfData where
  parts : List PdfRow
  totalAmount : Nat
  validUntil : Nat
  terms : String
deriving DecidableEq

/-- pdfQuotationData as built by handleQuotationPDF: rows from items
when non-empty, otherwise from the inquiry's parts with zero price;
validUntil defaults to thirty days from now; terms default to the
standard sentence. -/
def pdfQuotationData (q : Quotation) (inq : Inquiry) (now : Nat) : PdfData :=
  { parts :=
      if q.items.length > 0 then q.items.map shapeItemRow
      else inq.parts.map shapePartRow
    totalAmount := q.totalAmount
    validUntil :=
      match q.validUntil with
      | some v => v
      | none => now + 2592000000
    terms := jsOrStr q.terms
      "Standard manufacturing terms apply. Payment required before production begins." }

/-! ## The Regeneration Coordinator (handleQuotationPDF) -/

/-- Structured JSON error body: a success flag, a message, and the
filename when the handler includes it. -/
structure ErrBody where
  success : Bool
  message : String
  filename : Option String
deriving DecidableEq

/-- Transport-level outcome of one request. -/
inductive Outcome where
  | servedExisting (filename : String) (disposition : String)
  | servedRegenerated (fileName : String) (disposition : String)
  | notFound (body : ErrBody)
  | serverError (body : ErrBody)
deriving DecidableEq

/-- Result of pdfService.generateQuotationPDF: the canonical filename
it chose, and whether the file was actually created on disk (the
handler re-checks with existsSync). -/
structure BuildResult where
  fileName : String
  created : Bool
deriving DecidableEq

/-- Modelled from the spec: pdfService.generateQuotationPDF is not part
of the available sources.  Section 4.3 of the design describes it as an
external collaborator taking the Inquiry and the flattened pricing view
and returning PDF bytes plus a canonical filename of its own choosing,
not necessarily equal to the requested filename; it may also fail.  The
handler is therefore parameterised by this function. -/
def Builder : Type := Inquiry → PdfData → Except String BuildResult

/-- Instrumented result of one handler run: the outcome, the store and
database afterwards, and counters for locator stages attempted,
builder invocations and record writes. -/
structure HResult where
  outcome : Outcome
  store : List String
  db : DB
  strategiesTried : Nat
  builderCalls : Nat
  dbWrites : Nat
deriving DecidableEq

/-- Content-Disposition choice from the download query parameter
(truthy values true and 1 select attachment). -/
def dispositionOf (download : Option String) : String :=
  if download == some "true" || download == some "1" then "attachment" else "inline"

/-- Write the new pointer onto the matching record (quotation.save). -/
def updateQuotationPdf (db : DB) (oid : String) (fn : String) : DB :=
  { db with
    quotations := db.quotations.map (fun x =>
      if x.oid == oid then { x with quotationPdf := some fn } else x) }

/-- The handleQuotationPDF helper of index.js: serve the file when the
store has it; otherwise locate the quotation, locate its inquiry,
invoke the builder, verify the file was created, update the stored
pointer when the canonical filename differs from the requested one,
and serve the regenerated file.  The store is the set of filenames
present under uploads/quotations. -/
def handleQuotationPDF (builder : Builder) (db : DB) (store : List String)
    (filename : String) (download : Option String) (now : Nat) : HResult :=
  let disposition := dispositionOf download
  if store.contains filename then
    { outcome := Outcome.servedExisting filename disposition
      store := store, db := db
      strategiesTried := 0, builderCalls := 0, dbWrites := 0 }
  else
    match locateQuotation db filename with
    | (none, tried) =>
      { outcome := Outcome.notFound
          { success := false
            message := "Quotation PDF not found and cannot be regenerated"
            filename := some filename }
        store := store, db := db
        strategiesTried := tried, builderCalls := 0, dbWrites := 0 }
    | (some q, tried) =>
      match findInquiryFor db q with
      | none =>
        { outcome := Outcome.notFound
            { success := false
              message := "Inquiry not found for quotation"
              filename := none }
          store := store, db := db
          strategiesTried := tried, builderCalls := 0, dbWrites := 0 }
      | some inq =>
        match builder inq (pdfQuotationData q inq now) with
        | Except.error _ =>
          { outcome := Outcome.serverError
              { success := false, message := "Error regenerating PDF", filename := none }
            store := store, db := db
            strategiesTried := tried, builderCalls := 1, dbWrites := 0 }
        | Except.ok br =>
          let store1 := if br.created then br.fileName :: store else store
          if store1.contains br.fileName then
            if br.fileName = filename then
              { outcome := Outcome.servedRegenerated br.fileName disposition
                store := store1, db := db
                strategiesTried := tried, builderCalls := 1, dbWrites := 0 }
            else
              { outcome := Outcome.servedRegenerated br.fileName disposition
                store := store1
                db := updateQuotationPdf db q.oid br.fileName
                strategiesTried := tried, builderCalls := 1, dbWrites := 1 }
          else
            { outcome := Outcome.serverError
                { success := false
                  message := "PDF generation failed - file not created"
                  filename := none }
              store := store1, db := db
              strategiesTried := tried, builderCalls := 1, dbWrites := 0 }

/-! ## Escaped patterns have literal substring semantics (claim C10) -/

/-- Lexing an escaped filename yields exactly its characters as
literal atoms. -/
lemma lexemes_escChars : ∀ l : List Char,
    lexemes (escChars l) = some (l.map fun c => Sum.inl (RBase.lit c)) := by
  intro l
  induction l with
  | nil => simp [escChars, lexemes]
  | cons c l ih =>
    by_cases hc : c ∈ metaChars
    · simp [escChars, hc, lexemes, ih]
    · have h1 : ¬ c = '\\' := fun e => hc (by rw [e]; decide)
      have h2 : ¬ c = '.' := fun e => hc (by rw [e]; decide)
      have h3 : ¬ c ∈ quantChars :=
        fun hq => hc ((by decide : ∀ x ∈ quantChars, x ∈ metaChars) c hq)
      have h4 : ¬ c ∈ badBare :=
        fun hb => hc ((by decide : ∀ x ∈ badBare, x ∈ metaChars) c hb)
      rw [show escChars (c :: l) = c :: escChars l from by simp [escChars, hc]]
      rw [lexemes.eq_def]
      simp [h1, h2, h3, h4, ih]

/-- Combining a quantifier-free lexeme list is the identity embedding
into single-occurrence tokens. -/
lemma combine_lits : ∀ l : List Char,
    combine (l.map fun c => Sum.inl (RBase.lit c)) =
      some (l.map fun c => RTok.one (RBase.lit c)) := by
  intro l
  induction l with
  | nil => simp [combine]
  | cons c l ih =>
    cases l with
    | nil => simp [combine]
    | cons c2 l2 => simpa [combine] using congrArg (Option.map fun t => RTok.one (RBase.lit c) :: t) ih

/-- With enough fuel, matching an all-literal token list is the
case-insensitive starts-with test. -/
lemma mtchF_lits : ∀ (w : List Char) (n : Nat) (s : List Char),
    mtchF (w.length + n + 1) (w.map fun c => RTok.one (RBase.lit c)) s = swCI w s := by
  intro w
  induction w with
  | nil => intro n s; simp [mtchF, swCI]
  | cons d w ih =>
    intro n s
    have hf : (d :: w).length + n + 1 = (w.length + n + 1) + 1 := by
      simp [List.length_cons]; ring
    rw [hf]
    cases s with
    | nil => simp [mtchF, swCI]
    | cons c s => simp [mtchF, swCI, baseMatch, ih n s]

/-- Anchored match of an all-literal token list is the
case-insensitive starts-with test. -/
lemma mtch_lits (w s : List Char) :
    mtch (w.map fun c => RTok.one (RBase.lit c)) s = swCI w s := by
  have := mtchF_lits w s.length s
  simpa [mtch] using this

/-- Searching an all-literal token list is case-insensitive substring
containment. -/
lemma search_lits (w : List Char) : ∀ s : List Char,
    search (w.map fun c => RTok.one (RBase.lit c)) s = containsCI s w := by
  intro s
  induction s with
  | nil => simp [search, containsCI, mtch_lits]
  | cons c s ih => simp [search, containsCI, mtch_lits, ih]

/-- Testing the escaped filename as a case-insensitive regex against a
stored pointer is exactly case-insensitive substring containment of
the filename in the pointer. -/
lemma regexTest_escape (f p : String) :
    regexTestCI (jsEscape f) p = containsCI p.data f.data := by
  have hd : (jsEscape f).data = escChars f.data := rfl
  simp [regexTestCI, hd, tokenize, lexemes_escChars, combine_lits, search_lits]

/-- Claim C10: in the fuzzy pointer-match strategy every regex
metacharacter of the inbound filename is escaped before it is used as
a pattern, so for every filename the fuzzy comparison has literal
case-insensitive substring semantics over the stored pointer — no
inbound filename can act as a regular expression. -/
theorem c10_escape_literal (f p : String) :
    fuzzyTest p f = containsCI p.data f.data :=
  regexTest_escape f p

/-! ## Properties of the descending-sort findOne model -/

/-- Folding latestStep from a seed yields an element of the seed-or-list
that is at least as recent as the seed and every list element. -/
lemma latestAux : ∀ (l : List Quotation) (a : Quotation),
    ∃ q, l.foldl latestStep (some a) = some q ∧ (q = a ∨ q ∈ l) ∧
      a.createdAt ≤ q.createdAt ∧ ∀ x ∈ l, x.createdAt ≤ q.createdAt := by
  intro l
  induction l with
  | nil => intro a; exact ⟨a, rfl, Or.inl rfl, le_refl _, by simp⟩
  | cons c l ih =>
    intro a
    by_cases hlt : a.createdAt < c.createdAt
    · obtain ⟨q, hq, hmem, hle, hall⟩ := ih c
      refine ⟨q, ?_, ?_, ?_, ?_⟩
      · simpa [latestStep, hlt] using hq
      · rcases hmem with h | h
        · exact Or.inr (h ▸ List.mem_cons_self c l)
        · exact Or.inr (List.mem_cons_of_mem c h)
      · exact le_of_lt (lt_of_lt_of_le hlt hle)
      · intro x hx
        rcases List.mem_cons.mp hx with rfl | hx
        · exact hle
        · exact hall x hx
    · obtain ⟨q, hq, hmem, hle, hall⟩ := ih a
      refine ⟨q, ?_, ?_, ?_, ?_⟩
      · simpa [latestStep, hlt] using hq
      · rcases hmem with h | h
        · exact Or.inl h
        · exact Or.inr (List.mem_cons_of_mem c h)
      · exact hle
      · intro x hx
        rcases List.mem_cons.mp hx with rfl | hx
        · exact le_trans (le_of_not_lt hlt) hle
        · exact hall x hx

/-- A findOne sorted descending by createdAt returns a member that is
at least as recent as every member. -/
lemma latestIn_spec : ∀ (l : List Quotation) (q : Quotation), latestIn l = some q →
    q ∈ l ∧ ∀ x ∈ l, x.createdAt ≤ q.createdAt := by
  intro l q h
  cases l with
  | nil => simp [latestIn] at h
  | cons c l =>
    obtain ⟨q', hq', hmem, hle, hall⟩ := latestAux l c
    have he : latestIn (c :: l) = some q' := by
      simpa [latestIn, latestStep] using hq'
    have hqq : q = q' := by
      have := h.symm.trans he
      exact (Option.some.injEq _ _ ▸ this)
    subst hqq
    constructor
    · rcases hmem with rfl | h2
      · exact List.mem_cons_self _ _
      · exact List.mem_cons_of_mem _ h2
    · intro x hx
      rcases List.mem_cons.mp hx with rfl | hx
      · exact hle
      · exact hall x hx

/-- A filter by a predicate false on every element is empty. -/
lemma filterNilOf {α : Type} (p : α → Bool) : ∀ l : List α,
    (∀ x ∈ l, p x = false) → l.filter p = [] := by
  intro l
  induction l with
  | nil => intro _; rfl
  | cons c l ih =>
    intro h
    have hc := h c (List.mem_cons_self c l)
    have ht := ih (fun x hx => h x (List.mem_cons_of_mem c hx))
    simp [List.filter_cons, hc, ht]

/-! ## Claim C1: strict strategy order, first success wins -/

/-- Claim C1: the Record Locator applies its matching strategies in
strict order — exact pointer match, fuzzy pointer match,
embedded-inquiry-number match through the Inquiry record (trying both
the identifier and the human-readable form of the reference), then the
timestamp-proximity matches — and for every filename it stops at the
first strategy that succeeds, even if a later strategy would also
match; when every strategy fails the locator reports nothing. -/
theorem c1_locator_strict_order (db : DB) (f : String) :
    (∀ q, strategy1 db f = some q → locateQuotation db f = (some q, 1)) ∧
    (strategy1 db f = none → ∀ q, strategy2 db f = some q →
      locateQuotation db f = (some q, 2)) ∧
    (strategy1 db f = none → strategy2 db f = none → ∀ q, strategy3 db f = some q →
      locateQuotation db f = (some q, 3)) ∧
    (strategy1 db f = none → strategy2 db f = none → strategy3 db f = none →
      ∀ q, strategy4 db f = some q → locateQuotation db f = (some q, 4)) ∧
    (strategy1 db f = none → strategy2 db f = none → strategy3 db f = none →
      strategy4 db f = none → ∀ q, strategy5 db f = some q →
      locateQuotation db f = (some q, 5)) ∧
    (strategy1 db f = none → strategy2 db f = none → strategy3 db f = none →
      strategy4 db f = none → strategy5 db f = none →
      locateQuotation db f = (none, 5)) := by
  refine ⟨?_, ?_, ?_, ?_, ?_, ?_⟩ <;> intros <;> simp_all [locateQuotation]

/-- Locator witness data: one quotation with an unrelated pointer, one
whose pointer contains the requested filename, and one in the
timestamp window of the filename. -/
def c1q1 : Quotation :=
  { oid := "c1a", inquiryId := "INQ1", quotationPdf := some "quotation-1.pdf"
    items := [], totalAmount := 0, validUntil := some 1, terms := some "t", createdAt := 0 }

/-- Locator witness data: matched by the fuzzy strategy. -/
def c1q2 : Quotation :=
  { oid := "c1b", inquiryId := "INQ2", quotationPdf := some "xx-Quotation-777000-aa.pdf-yy"
    items := [], totalAmount := 0, validUntil := some 1, terms := some "t", createdAt := 999999999 }

/-- Locator witness data: matched by the timestamp strategy only. -/
def c1q3 : Quotation :=
  { oid := "c1c", inquiryId := "INQ3", quotationPdf := none
    items := [], totalAmount := 0, validUntil := some 1, terms := some "t", createdAt := 777000 }

/-- Locator witness database. -/
def c1db : DB := { quotations := [c1q1, c1q2, c1q3], inquiries := [] }

/-- Witness for claim C1: on a concrete database the exact strategy
fails, the fuzzy strategy matches one record, the timestamp strategy
would match a different record, and the locator returns the fuzzy
strategy's record — the first success wins. -/
theorem c1_locator_strict_order_witness :
    strategy1 c1db "quotation-777000-aa.pdf" = none ∧
    strategy2 c1db "quotation-777000-aa.pdf" = some c1q2 ∧
    strategy4 c1db "quotation-777000-aa.pdf" = some c1q3 ∧
    c1q3 ≠ c1q2 ∧
    locateQuotation c1db "quotation-777000-aa.pdf" = (some c1q2, 2) :=
  ⟨by decide, by decide, by decide, by decide,
    (c1_locator_strict_order c1db "quotation-777000-aa.pdf").2.1 (by decide) c1q2 (by decide)⟩

/-! ## Claim C5: timestamp-proximity windows -/

/-- Claim C5: with every earlier strategy failing, a filename of the
quotation-TIMESTAMP-RANDOM shape selects a quotation created within
five seconds of the embedded timestamp, a filename of the generated
quotation_REF_TIMESTAMP.pdf shape one created within ten seconds; in
both cases the selected quotation is at least as recently created as
every in-window quotation, and when no quotation falls in the window
(and the other shape does not parse either) resolution fails. -/
theorem c5_timestamp_windows (db : DB) (f : String) :
    (∀ ts q, strategy1 db f = none → strategy2 db f = none → strategy3 db f = none →
      parseHyphenTs f = some ts → strategy4 db f = some q →
      locateQuotation db f = (some q, 4) ∧ q ∈ db.quotations ∧
        inWindow ts 5000 q = true ∧
        ∀ x ∈ db.quotations, inWindow ts 5000 x = true → x.createdAt ≤ q.createdAt) ∧
    (∀ ts q, strategy1 db f = none → strategy2 db f = none → strategy3 db f = none →
      strategy4 db f = none → parseGenTs f = some ts → strategy5 db f = some q →
      locateQuotation db f = (some q, 5) ∧ q ∈ db.quotations ∧
        inWindow ts 10000 q = true ∧
        ∀ x ∈ db.quotations, inWindow ts 10000 x = true → x.createdAt ≤ q.createdAt) ∧
    (∀ ts, strategy1 db f = none → strategy2 db f = none → strategy3 db f = none →
      parseHyphenTs f = some ts →
      (∀ x ∈ db.quotations, inWindow ts 5000 x = false) →
      parseGenTs f = none → locateQuotation db f = (none, 5)) := by
  refine ⟨?_, ?_, ?_⟩
  · intro ts q h1 h2 h3 hp h4
    have hlat : latestIn (db.quotations.filter (inWindow ts 5000)) = some q := by
      simpa [strategy4, hp] using h4
    obtain ⟨hmem, hall⟩ := latestIn_spec _ _ hlat
    have hin := List.mem_filter.mp hmem
    refine ⟨by simp [locateQuotation, h1, h2, h3, h4], hin.1, hin.2, ?_⟩
    intro x hx hw
    exact hall x (List.mem_filter.mpr ⟨hx, hw⟩)
  · intro ts q h1 h2 h3 h4 hp h5
    have hlat : latestIn (db.quotations.filter (inWindow ts 10000)) = some q := by
      simpa [strategy5, hp] using h5
    obtain ⟨hmem, hall⟩ := latestIn_spec _ _ hlat
    have hin := List.mem_filter.mp hmem
    refine ⟨by simp [locateQuotation, h1, h2, h3, h4, h5], hin.1, hin.2, ?_⟩
    intro x hx hw
    exact hall x (List.mem_filter.mpr ⟨hx, hw⟩)
  · intro ts h1 h2 h3 hp hnone hg
    have h4 : strategy4 db f = none := by
      simp [strategy4, hp, filterNilOf _ _ hnone, latestIn]
    have h5 : strategy5 db f = none := by
      simp [strategy5, hg]
    simp [locateQuotation, h1, h2, h3, h4, h5]

/-- Window witness data: in the five-second window, older. -/
def c5q1 : Quotation :=
  { oid := "c5a", inquiryId := "I1", quotationPdf := none
    items := [], totalAmount := 0, validUntil := some 1, terms := some "t"
    createdAt := 1699999999000 }

/-- Window witness data: in the five-second window, most recent. -/
def c5q2 : Quotation :=
  { oid := "c5b", inquiryId := "I2", quotationPdf := none
    items := [], totalAmount := 0, validUntil := some 1, terms := some "t"
    createdAt := 1700000002000 }

/-- Window witness database. -/
def c5db : DB := { quotations := [c5q1, c5q2], inquiries := [] }

/-- Witness for claim C5: for the concrete filename
quotation-1700000000000-7421.pdf both records lie in the five-second
window and the most recently created one is selected by stage four. -/
theorem c5_timestamp_windows_witness :
    locateQuotation c5db "quotation-1700000000000-7421.pdf" = (some c5q2, 4) ∧
    inWindow 1700000000000 5000 c5q2 = true ∧
    (∀ x ∈ c5db.quotations, inWindow 1700000000000 5000 x = true →
      x.createdAt ≤ c5q2.createdAt) := by
  have h := (c5_timestamp_windows c5db "quotation-1700000000000-7421.pdf").1
    1700000000000 c5q2 (by decide) (by decide) (by decide) (by decide) (by decide)
  exact ⟨h.1, h.2.2.1, h.2.2.2⟩

/-! ## Claim C6: PDF input shaping -/

/-- Claim C6: when the resolved quotation's items list is non-empty the
PDF part rows are derived from the items, with material defaulting to
Zintec and thickness to 1.5 when absent; when items is empty the rows
are derived from the inquiry's parts with the price forced to zero. -/
theorem c6_shaping_rule (q : Quotation) (inq : Inquiry) (now : Nat) :
    (q.items ≠ [] → (pdfQuotationData q inq now).parts = q.items.map shapeItemRow) ∧
    (∀ it : QItem, it.material = none → (shapeItemRow it).material = "Zintec") ∧
    (∀ it : QItem, it.thickness = none → (shapeItemRow it).thickness = "1.5") ∧
    (q.items = [] →
      (pdfQuotationData q inq now).parts = inq.parts.map shapePartRow ∧
      ∀ row ∈ (pdfQuotationData q inq now).parts, row.price = 0) := by
  refine ⟨?_, ?_, ?_, ?_⟩
  · intro h
    have : q.items.length > 0 := List.length_pos.mpr h
    simp [pdfQuotationData, this]
  · intro it h; simp [shapeItemRow, h, jsOrStr]
  · intro it h; simp [shapeItemRow, h, jsOrStr]
  · intro h
    constructor
    · simp [pdfQuotationData, h]
    · intro row hrow
      simp [pdfQuotationData, h] at hrow
      obtain ⟨p, _, hp⟩ := hrow
      rw [← hp]
      rfl

/-- Shaping witness data: the spec's concrete scenario, a quotation
with empty items. -/
def c6q : Quotation :=
  { oid := "c6q", inquiryId := "c6i", quotationPdf := none
    items := [], totalAmount := 0, validUntil := some 1, terms := some "t", createdAt := 0 }

/-- Shaping witness data: the inquiry with one Steel part. -/
def c6inq : Inquiry :=
  { oid := "c6i", inquiryNumber := "INQ9"
    parts := [{ partRef := none, material := some "Steel", thickness := some "2mm"
                quantity := some 5, remarks := none }] }

/-- Witness for claim C6: with empty items the rows come from the
inquiry's Steel part and every row has price zero. -/
theorem c6_shaping_rule_witness :
    (pdfQuotationData c6q c6inq 0).parts =
      [{ partRef := "", material := "Steel", thickness := "2mm"
         quantity := 5, price := 0, remarks := "" }] ∧
    (∀ row ∈ (pdfQuotationData c6q c6inq 0).parts, row.price = 0) :=
  ⟨by decide, ((c6_shaping_rule c6q c6inq 0).2.2.2 rfl).2⟩

/-! ## Claim C7: store hit is a pure fast path -/

/-- Claim C7: when the Artifact Store already has the requested file
the request is served directly from the store, with zero locator
strategy invocations, no builder invocation and no database
mutation. -/
theorem c7_fast_path (builder : Builder) (db : DB) (store : List String)
    (f : String) (dl : Option String) (now : Nat)
    (h : store.contains f = true) :
    handleQuotationPDF builder db store f dl now =
      { outcome := Outcome.servedExisting f (dispositionOf dl)
        store := store, db := db
        strategiesTried := 0, builderCalls := 0, dbWrites := 0 } := by
  have h' : f ∈ store := by simpa using h
  simp [handleQuotationPDF, h']

/-- A builder for witnesses that must never be reached. -/
def failBuilder : Builder := fun _ _ => Except.error "unreachable"

/-- Witness for claim C7: a present file is served unchanged on a
concrete store and database. -/
theorem c7_fast_path_witness :
    handleQuotationPDF failBuilder c1db ["q.pdf"] "q.pdf" (some "true") 0 =
      { outcome := Outcome.servedExisting "q.pdf" "attachment"
        store := ["q.pdf"], db := c1db
        strategiesTried := 0, builderCalls := 0, dbWrites := 0 } := by
  have h := c7_fast_path failBuilder c1db ["q.pdf"] "q.pdf" (some "true") 0 (by decide)
  simpa [dispositionOf] using h

/-! ## Claim C8: unresolvable files yield a structured not-found -/

/-- Claim C8: when the requested file is absent and every locator
strategy fails the outcome is a not-found condition with a structured
body carrying the success flag, a message and the filename — never a
server error — and the request invokes no builder and mutates no
database record. -/
theorem c8_not_found (builder : Builder) (db : DB) (store : List String)
    (f : String) (dl : Option String) (now : Nat)
    (h : store.contains f = false)
    (hl : (locateQuotation db f).1 = none) :
    (handleQuotationPDF builder db store f dl now).outcome =
      Outcome.notFound
        { success := false
          message := "Quotation PDF not found and cannot be regenerated"
          filename := some f } ∧
    (handleQuotationPDF builder db store f dl now).builderCalls = 0 ∧
    (handleQuotationPDF builder db store f dl now).dbWrites = 0 ∧
    (handleQuotationPDF builder db store f dl now).db = db ∧
    (handleQuotationPDF builder db store f dl now).store = store := by
  rcases he : locateQuotation db f with ⟨o, t⟩
  rw [he] at hl
  simp at hl
  subst hl
  have h' : f ∉ store := by simpa using h
  simp [handleQuotationPDF, h', he]

/-- Witness for claim C8: an empty store and database produce the
structured 404 with no builder call and no write. -/
theorem c8_not_found_witness :
    (handleQuotationPDF failBuilder { quotations := [], inquiries := [] } []
        "nosuch.pdf" none 0).outcome =
      Outcome.notFound
        { success := false
          message := "Quotation PDF not found and cannot be regenerated"
          filename := some "nosuch.pdf" } ∧
    (handleQuotationPDF failBuilder { quotations := [], inquiries := [] } []
        "nosuch.pdf" none 0).builderCalls = 0 :=
  ⟨(c8_not_found failBuilder _ _ "nosuch.pdf" none 0 (by decide) (by decide)).1,
   (c8_not_found failBuilder _ _ "nosuch.pdf" none 0 (by decide) (by decide)).2.1⟩

/-! ## The rebuild path of the handler, characterised -/

/-- Successful rebuild whose canonical filename differs from the
requested one: the file is written, the pointer is rewritten to the
canonical name, and the record is persisted. -/
lemma handle_rebuild_eq (builder : Builder) (db : DB) (store : List String)
    (f : String) (dl : Option String) (now : Nat) (q : Quotation) (tried : Nat)
    (inq : Inquiry) (br : BuildResult)
    (h : f ∉ store) (hl : locateQuotation db f = (some q, tried))
    (hi : findInquiryFor db q = some inq)
    (hb : builder inq (pdfQuotationData q inq now) = Except.ok br)
    (hc : br.created = true) (hne : br.fileName ≠ f) :
    handleQuotationPDF builder db store f dl now =
      { outcome := Outcome.servedRegenerated br.fileName (dispositionOf dl)
        store := br.fileName :: store
        db := updateQuotationPdf db q.oid br.fileName
        strategiesTried := tried, builderCalls := 1, dbWrites := 1 } := by
  simp [handleQuotationPDF, h, hl, hi, hb, hc, hne]

/-- Successful rebuild whose canonical filename equals the requested
one: the file is written but the record is left untouched. -/
lemma handle_rebuild_same_eq (builder : Builder) (db : DB) (store : List String)
    (f : String) (dl : Option String) (now : Nat) (q : Quotation) (tried : Nat)
    (inq : Inquiry) (br : BuildResult)
    (h : f ∉ store) (hl : locateQuotation db f = (some q, tried))
    (hi : findInquiryFor db q = some inq)
    (hb : builder inq (pdfQuotationData q inq now) = Except.ok br)
    (hc : br.created = true) (heq : br.fileName = f) :
    handleQuotationPDF builder db store f dl now =
      { outcome := Outcome.servedRegenerated br.fileName (dispositionOf dl)
        store := br.fileName :: store
        db := db
        strategiesTried := tried, builderCalls := 1, dbWrites := 0 } := by
  simp [handleQuotationPDF, h, hl, hi, hb, hc, heq]

/-- A rebuild whose file never appeared in the store is reported as a
server error with the pointer left unchanged. -/
lemma handle_rebuild_fail_eq (builder : Builder) (db : DB) (store : List String)
    (f : String) (dl : Option String) (now : Nat) (q : Quotation) (tried : Nat)
    (inq : Inquiry) (br : BuildResult)
    (h : f ∉ store) (hl : locateQuotation db f = (some q, tried))
    (hi : findInquiryFor db q = some inq)
    (hb : builder inq (pdfQuotationData q inq now) = Except.ok br)
    (hc : br.created = false) (hs : br.fileName ∉ store) :
    handleQuotationPDF builder db store f dl now =
      { outcome := Outcome.serverError
          { success := false
            message := "PDF generation failed - file not created"
            filename := none }
        store := store, db := db
        strategiesTried := tried, builderCalls := 1, dbWrites := 0 } := by
  simp [handleQuotationPDF, h, hl, hi, hb, hc, hs]

/-- After updateQuotationPdf, every record with the rewritten id
carries the new pointer. -/
lemma updateQuotationPdf_pointer (db : DB) (oid fn : String) :
    ∀ x ∈ (updateQuotationPdf db oid fn).quotations,
      x.oid = oid → x.quotationPdf = some fn := by
  intro x hx hoid
  simp only [updateQuotationPdf, List.mem_map] at hx
  obtain ⟨y, _, hy⟩ := hx
  by_cases hbe : y.oid = oid
  · rw [← hy]
    simp [hbe]
  · rw [← hy] at hoid
    simp [hbe] at hoid

/-! ## Claim C3 (corrected): pointer update condition -/

/-- Counterexample data for claim C3: a quotation holding a stale
pointer, found by the timestamp strategy. -/
def c3q : Quotation :=
  { oid := "c3q", inquiryId := "INQ240202222", quotationPdf := some "old.pdf"
    items := [], totalAmount := 5, validUntil := some 9, terms := some "T", createdAt := 5000 }

/-- Counterexample data for claim C3: the quotation's inquiry. -/
def c3inq : Inquiry := { oid := "c3i", inquiryNumber := "INQ240202222", parts := [] }

/-- Counterexample database for claim C3. -/
def c3db : DB := { quotations := [c3q], inquiries := [c3inq] }

/-- Counterexample builder for claim C3: the canonical filename
coincides with the requested filename. -/
def c3builder : Builder :=
  fun _ _ => Except.ok { fileName := "quotation-5000-ab.pdf", created := true }

/-- Counterexample for claim C3: a successful rebuild in which the
builder's canonical filename differs from the stored pointer, yet the
pointer field is NOT updated — the handler compares the canonical name
against the requested filename, not against the stored pointer, so
when the two coincide the record keeps its stale pointer. -/
theorem c3_pointer_update_counterexample :
    (handleQuotationPDF c3builder c3db [] "quotation-5000-ab.pdf" none 0).outcome =
      Outcome.servedRegenerated "quotation-5000-ab.pdf" "inline" ∧
    c3q.quotationPdf = some "old.pdf" ∧
    "quotation-5000-ab.pdf" ≠ "old.pdf" ∧
    (handleQuotationPDF c3builder c3db [] "quotation-5000-ab.pdf" none 0).db = c3db ∧
    (handleQuotationPDF c3builder c3db [] "quotation-5000-ab.pdf" none 0).dbWrites = 0 := by
  decide

/-- Claim C3 as amended: during persisting, the pointer is rewritten
to the canonical filename exactly when that name differs from the
REQUESTED filename (not the stored pointer); whenever the pointer is
advanced the artifact write has completed, and a build whose file was
not created is a server error that leaves the record unchanged. -/
theorem c3_pointer_update_amended (builder : Builder) (db : DB) (store : List String)
    (f : String) (dl : Option String) (now : Nat) (q : Quotation) (tried : Nat)
    (inq : Inquiry) (br : BuildResult)
    (h : f ∉ store) (hl : locateQuotation db f = (some q, tried))
    (hi : findInquiryFor db q = some inq)
    (hb : builder inq (pdfQuotationData q inq now) = Except.ok br) :
    (br.created = true → br.fileName ≠ f →
      (handleQuotationPDF builder db store f dl now).outcome =
        Outcome.servedRegenerated br.fileName (dispositionOf dl) ∧
      (handleQuotationPDF builder db store f dl now).store.contains br.fileName = true ∧
      ∀ x ∈ (handleQuotationPDF builder db store f dl now).db.quotations,
        x.oid = q.oid → x.quotationPdf = some br.fileName) ∧
    (br.created = false → br.fileName ∉ store →
      (handleQuotationPDF builder db store f dl now).outcome =
        Outcome.serverError
          { success := false
            message := "PDF generation failed - file not created"
            filename := none } ∧
      (handleQuotationPDF builder db store f dl now).db = db ∧
      (handleQuotationPDF builder db store f dl now).dbWrites = 0) := by
  constructor
  · intro hc hne
    rw [handle_rebuild_eq builder db store f dl now q tried inq br h hl hi hb hc hne]
    refine ⟨rfl, by simp, ?_⟩
    exact updateQuotationPdf_pointer db q.oid br.fileName
  · intro hc hs
    rw [handle_rebuild_fail_eq builder db store f dl now q tried inq br h hl hi hb hc hs]
    exact ⟨rfl, rfl, rfl⟩

/-- Witness data for the amended claim C3: the same store state with a
builder that picks a fresh canonical name. -/
def c3wbuilder : Builder :=
  fun _ _ => Except.ok { fileName := "quotation_INQ240202222_9000.pdf", created := true }

/-- Witness for the amended claim C3: with a canonical name differing
from the requested one the pointer is rewritten to a name present in
the store; a failed write is a server error leaving the record
unchanged. -/
theorem c3_pointer_update_amended_witness :
    (handleQuotationPDF c3wbuilder c3db [] "quotation-5000-ab.pdf" none 0).outcome =
      Outcome.servedRegenerated "quotation_INQ240202222_9000.pdf" "inline" ∧
    (handleQuotationPDF c3wbuilder c3db [] "quotation-5000-ab.pdf" none
        0).store.contains "quotation_INQ240202222_9000.pdf" = true ∧
    ∀ x ∈ (handleQuotationPDF c3wbuilder c3db [] "quotation-5000-ab.pdf" none 0).db.quotations,
      x.oid = c3q.oid → x.quotationPdf = some "quotation_INQ240202222_9000.pdf" :=
  (c3_pointer_update_amended c3wbuilder c3db [] "quotation-5000-ab.pdf" none 0 c3q 4 c3inq
      { fileName := "quotation_INQ240202222_9000.pdf", created := true }
      (by decide) (by decide) (by decide) rfl).1 (by decide) (by decide)

/-! ## Claim C4 (corrected): pointer consistency after a rebuild -/

/-- Counterexample data for claim C4: a quotation with a dangling
stale pointer. -/
def c4q : Quotation :=
  { oid := "c4q", inquiryId := "INQ240303333", quotationPdf := some "stale.pdf"
    items := [], totalAmount := 7, validUntil := some 9, terms := some "T", createdAt := 8000 }

/-- Counterexample data for claim C4: the quotation's inquiry. -/
def c4inq : Inquiry := { oid := "c4i", inquiryNumber := "INQ240303333", parts := [] }

/-- Counterexample database for claim C4. -/
def c4db : DB := { quotations := [c4q], inquiries := [c4inq] }

/-- Counterexample builder for claim C4: the canonical filename equals
the requested filename. -/
def c4builder : Builder :=
  fun _ _ => Except.ok { fileName := "quotation-8000-zz.pdf", created := true }

/-- Counterexample for claim C4: a successful rebuild after which the
stored pointer names a file that does NOT exist in the store — the
pointer is only rewritten when the canonical name differs from the
requested filename, so a stale pointer can survive a successful
rebuild and keep dangling. -/
theorem c4_pointer_exists_counterexample :
    (handleQuotationPDF c4builder c4db [] "quotation-8000-zz.pdf" none 0).outcome =
      Outcome.servedRegenerated "quotation-8000-zz.pdf" "inline" ∧
    (∀ x ∈ (handleQuotationPDF c4builder c4db [] "quotation-8000-zz.pdf" none 0).db.quotations,
      x.quotationPdf = some "stale.pdf") ∧
    (handleQuotationPDF c4builder c4db [] "quotation-8000-zz.pdf" none
        0).store.contains "stale.pdf" = false := by
  decide

/-- Claim C4 as amended: after every successful rebuild in which the
builder's canonical filename differs from the requested filename, the
rebuilt record's stored pointer names a file present in the Artifact
Store at the moment the record write commits. -/
theorem c4_pointer_exists_amended (builder : Builder) (db : DB) (store : List String)
    (f : String) (dl : Option String) (now : Nat) (q : Quotation) (tried : Nat)
    (inq : Inquiry) (br : BuildResult)
    (h : f ∉ store) (hl : locateQuotation db f = (some q, tried))
    (hi : findInquiryFor db q = some inq)
    (hb : builder inq (pdfQuotationData q inq now) = Except.ok br)
    (hc : br.created = true) (hne : br.fileName ≠ f) :
    (handleQuotationPDF builder db store f dl now).outcome =
      Outcome.servedRegenerated br.fileName (dispositionOf dl) ∧
    ∃ p, (∀ x ∈ (handleQuotationPDF builder db store f dl now).db.quotations,
        x.oid = q.oid → x.quotationPdf = some p) ∧
      (handleQuotationPDF builder db store f dl now).store.contains p = true := by
  rw [handle_rebuild_eq builder db store f dl now q tried inq br h hl hi hb hc hne]
  exact ⟨rfl, br.fileName, updateQuotationPdf_pointer db q.oid br.fileName, by simp⟩

/-- Witness builder for the amended claim C4. -/
def c4wbuilder : Builder :=
  fun _ _ => Except.ok { fileName := "quotation_INQ240303333_9500.pdf", created := true }

/-- Witness for the amended claim C4: a concrete rebuild with a fresh
canonical name leaves the pointer referencing a stored file. -/
theorem c4_pointer_exists_amended_witness :
    (handleQuotationPDF c4wbuilder c4db [] "quotation-8000-zz.pdf" none 0).outcome =
      Outcome.servedRegenerated "quotation_INQ240303333_9500.pdf" "inline" ∧
    ∃ p, (∀ x ∈ (handleQuotationPDF c4wbuilder c4db [] "quotation-8000-zz.pdf" none
          0).db.quotations, x.oid = c4q.oid → x.quotationPdf = some p) ∧
      (handleQuotationPDF c4wbuilder c4db [] "quotation-8000-zz.pdf" none
          0).store.contains p = true :=
  c4_pointer_exists_amended c4wbuilder c4db [] "quotation-8000-zz.pdf" none 0 c4q 4 c4inq
    { fileName := "quotation_INQ240303333_9500.pdf", created := true }
    (by decide) (by decide) (by decide) rfl rfl (by decide)

/-! ## Claim C9: the interceptor waits a bounded period

quotationPDFInterceptor runs before the static middleware.  When the
handler is already registered it dispatches immediately; otherwise it
polls every 100 milliseconds and a 5000 millisecond timeout clears the
poll and answers 503 if no response was produced.  The model below
abstracts the event-loop timers into the poll instants 100..4900 and
the timeout instant 5000 (at the shared 5000 instant the timeout is
taken first; either convention satisfies the bounded-wait claim), and
treats a dispatch to the handler as the answer to the request — the
handler's own behaviour is covered by the theorems above. -/

/-- The 503 body sent when the handler never becomes ready. -/
def notReadyBody : ErrBody :=
  { success := false, message := "Service temporarily unavailable", filename := none }

/-- Outcome of the interceptor for one request: dispatched to the
handler at some instant, or answered 503 at the timeout. -/
inductive IOutcome where
  | dispatched (t : Nat)
  | unavailable (t : Nat) (body : ErrBody)
deriving DecidableEq

/-- The poll instants of the 100 millisecond interval before the
timeout fires. -/
def pollTicks : List Nat := (List.range 49).map (fun k => 100 * (k + 1))

/-- First poll instant at or after the handler becomes ready. -/
def firstTickAtOrAfter (r : Nat) : Option Nat :=
  (pollTicks.filter (fun t => r ≤ t)).head?

/-- The interceptor, as a function of the instant (relative to request
arrival) at which the quotation PDF handler becomes registered; none
means it never does. -/
def quotationPDFInterceptor (readyAt : Option Nat) : IOutcome :=
  match readyAt with
  | none => IOutcome.unavailable 5000 notReadyBody
  | some r =>
    if r = 0 then IOutcome.dispatched 0
    else
      match firstTickAtOrAfter r with
      | some t => IOutcome.dispatched t
      | none => IOutcome.unavailable 5000 notReadyBody

/-- The instant by which the request has been answered or handed to
the handler. -/
def answeredBy : IOutcome → Nat
  | IOutcome.dispatched t => t
  | IOutcome.unavailable t _ => t

/-- The head of a filtered list is a member satisfying the filter. -/
lemma head_filter_spec (p : Nat → Bool) : ∀ (l : List Nat) (t : Nat),
    (l.filter p).head? = some t → t ∈ l ∧ p t = true := by
  intro l
  induction l with
  | nil => intro t h; simp at h
  | cons c l ih =>
    intro t h
    cases hc : p c with
    | true =>
      rw [List.filter_cons, if_pos (by simp [hc])] at h
      simp at h
      subst h
      exact ⟨List.mem_cons_self c l, hc⟩
    | false =>
      rw [List.filter_cons, if_neg (by simp [hc])] at h
      obtain ⟨hm, hp⟩ := ih t h
      exact ⟨List.mem_cons_of_mem c hm, hp⟩

/-- Every poll instant lies at or before 4900. -/
lemma pollTicks_le : ∀ t ∈ pollTicks, t ≤ 4900 := by decide

/-- Claim C9: a request arriving while the handler is not yet ready is
answered or dispatched within the 5000 millisecond bound; if the
dependency never becomes ready within the polling period the request
fails with the structured 503 body rather than hanging; and a dispatch
only happens once the handler is ready. -/
theorem c9_bounded_wait (readyAt : Option Nat) :
    answeredBy (quotationPDFInterceptor readyAt) ≤ 5000 ∧
    (readyAt = none →
      quotationPDFInterceptor readyAt = IOutcome.unavailable 5000 notReadyBody) ∧
    (∀ r, readyAt = some r → 4900 < r → r ≠ 0 →
      quotationPDFInterceptor readyAt = IOutcome.unavailable 5000 notReadyBody) ∧
    (∀ t, quotationPDFInterceptor readyAt = IOutcome.dispatched t →
      ∃ r, readyAt = some r ∧ r ≤ t) := by
  refine ⟨?_, ?_, ?_, ?_⟩
  · cases readyAt with
    | none => simp [quotationPDFInterceptor, answeredBy]
    | some r =>
      by_cases hr : r = 0
      · simp [quotationPDFInterceptor, hr, answeredBy]
      · cases hf : firstTickAtOrAfter r with
        | none => simp [quotationPDFInterceptor, hr, hf, answeredBy]
        | some t =>
          obtain ⟨hm, _⟩ := head_filter_spec _ pollTicks t hf
          have := pollTicks_le t hm
          simp [quotationPDFInterceptor, hr, hf, answeredBy]
          omega
  · intro h; subst h; rfl
  · intro r hr hgt hne
    subst hr
    have hnone : firstTickAtOrAfter r = none := by
      have hfil : pollTicks.filter (fun t => r ≤ t) = [] := by
        apply filterNilOf
        intro t ht
        have := pollTicks_le t ht
        simp
        omega
      simp [firstTickAtOrAfter, hfil]
    simp [quotationPDFInterceptor, hne, hnone]
  · intro t h
    cases hr : readyAt with
    | none => rw [hr] at h; simp [quotationPDFInterceptor] at h
    | some r =>
      rw [hr] at h
      by_cases h0 : r = 0
      · refine ⟨r, rfl, ?_⟩
        simp [quotationPDFInterceptor, h0] at h
        omega
      · cases hf : firstTickAtOrAfter r with
        | none => simp [quotationPDFInterceptor, h0, hf] at h
        | some t2 =>
          simp [quotationPDFInterceptor, h0, hf] at h
          obtain ⟨_, hp⟩ := head_filter_spec _ pollTicks t2 hf
          refine ⟨r, rfl, ?_⟩
          subst h
          exact of_decide_eq_true hp

/-- Witness for claim C9: a handler that never becomes ready yields
the structured 503 at the 5000 millisecond bound, and a handler ready
after 250 milliseconds is dispatched by the next poll instant. -/
theorem c9_bounded_wait_witness :
    quotationPDFInterceptor none = IOutcome.unavailable 5000 notReadyBody ∧
    answeredBy (quotationPDFInterceptor (some 250)) ≤ 5000 :=
  ⟨(c9_bounded_wait none).2.1 rfl, (c9_bounded_wait (some 250)).1⟩

/-! ## Claim C2: concurrent rebuild requests

handleQuotationPDF holds no lock: between the synchronous existsSync
check and the artifact write lie the awaited database lookups and the
awaited builder call, so a second request for the same missing file can
pass its own existence check before the first request has written
anything.  The interleaving model below runs two requests for the same
filename over shared store and database state; each step is one
synchronous block of the handler between suspension points (existence
check; lookups; builder call together with its file write; the
verify-and-persist continuation).  A schedule lists which request
moves at each step. -/

/-- Program counter of one in-flight request. -/
inductive RPhase where
  | start
  | resolving
  | building (q : Quotation) (inq : Inquiry)
  | persisting (q : Quotation) (br : BuildResult)
  | finished (o : Outcome)
deriving DecidableEq

/-- State shared by concurrent requests: the artifact store, the
database, and the number of builder invocations so far. -/
structure CShared where
  store : List String
  db : DB
  builderCalls : Nat
deriving DecidableEq

/-- Two concurrent requests over the shared state. -/
structure CSys where
  shared : CShared
  req1 : RPhase
  req2 : RPhase
deriving DecidableEq

/-- One synchronous block of handleQuotationPDF for one request. -/
def reqStep (builder : Builder) (filename : String) (now : Nat)
    (sh : CShared) (ph : RPhase) : CShared × RPhase :=
  match ph with
  | RPhase.start =>
    if sh.store.contains filename then
      (sh, RPhase.finished (Outcome.servedExisting filename "inline"))
    else (sh, RPhase.resolving)
  | RPhase.resolving =>
    match (locateQuotation sh.db filename).1 with
    | none =>
      (sh, RPhase.finished (Outcome.notFound
        { success := false
          message := "Quotation PDF not found and cannot be regenerated"
          filename := some filename }))
    | some q =>
      match findInquiryFor sh.db q with
      | none =>
        (sh, RPhase.finished (Outcome.notFound
          { success := false, message := "Inquiry not found for quotation", filename := none }))
      | some inq => (sh, RPhase.building q inq)
  | RPhase.building q inq =>
    match builder inq (pdfQuotationData q inq now) with
    | Except.error _ =>
      ({ sh with builderCalls := sh.builderCalls + 1 },
        RPhase.finished (Outcome.serverError
          { success := false, message := "Error regenerating PDF", filename := none }))
    | Except.ok br =>
      ({ sh with
          store := if br.created then br.fileName :: sh.store else sh.store
          builderCalls := sh.builderCalls + 1 },
        RPhase.persisting q br)
  | RPhase.persisting q br =>
    if sh.store.contains br.fileName then
      if br.fileName = filename then
        (sh, RPhase.finished (Outcome.servedRegenerated br.fileName "inline"))
      else
        ({ sh with db := updateQuotationPdf sh.db q.oid br.fileName },
          RPhase.finished (Outcome.servedRegenerated br.fileName "inline"))
    else
      (sh, RPhase.finished (Outcome.serverError
        { success := false
          message := "PDF generation failed - file not created"
          filename := none }))
  | RPhase.finished o => (sh, RPhase.finished o)

/-- Advance the chosen request by one step. -/
def sysStep (builder : Builder) (filename : String) (now : Nat)
    (pick1 : Bool) (st : CSys) : CSys :=
  if pick1 then
    let p := reqStep builder filename now st.shared st.req1
    { st with shared := p.1, req1 := p.2 }
  else
    let p := reqStep builder filename now st.shared st.req2
    { st with shared := p.1, req2 := p.2 }

/-- Run a schedule of request choices from an initial state. -/
def runSched (builder : Builder) (filename : String) (now : Nat)
    (sched : List Bool) (st : CSys) : CSys :=
  sched.foldl (fun s pick => sysStep builder filename now pick s) st

/-- Concurrency counterexample data: the quotation both requests
resolve. -/
def c2q : Quotation :=
  { oid := "c2q", inquiryId := "INQ240101111", quotationPdf := none
    items := [], totalAmount := 100, validUntil := some 111, terms := some "T"
    createdAt := 1700000002000 }

/-- Concurrency counterexample data: its inquiry. -/
def c2inq : Inquiry :=
  { oid := "c2i", inquiryNumber := "INQ240101111"
    parts := [{ partRef := some "P1", material := some "Steel", thickness := some "2mm"
                quantity := some 5, remarks := none }] }

/-- Concurrency counterexample database. -/
def c2db : DB := { quotations := [c2q], inquiries := [c2inq] }

/-- Concurrency counterexample builder with a fresh canonical name. -/
def c2builder : Builder :=
  fun _ _ => Except.ok { fileName := "quotation_INQ240101111_1700000009000.pdf", created := true }

/-- The interleaving in which both requests pass their existence check
before either builds. -/
def c2sched : List Bool := [true, false, true, true, true, false, false, false]

/-- The initial state of the two concurrent requests. -/
def c2init : CSys :=
  { shared := { store := [], db := c2db, builderCalls := 0 }
    req1 := RPhase.start, req2 := RPhase.start }

/-- Counterexample for claim C2: the handler holds no per-record lock,
so under the interleaving in which both requests observe the file as
missing before either rebuild completes, the Document Builder is
invoked TWICE for the same quotation — the second request rebuilds
instead of waiting for the first rebuild's result. -/
theorem c2_duplicate_rebuild_counterexample :
    (runSched c2builder "quotation-1700000002000-99.pdf" 0 c2sched c2init).shared.builderCalls
        = 2 ∧
    (runSched c2builder "quotation-1700000002000-99.pdf" 0 c2sched c2init).req1 =
      RPhase.finished
        (Outcome.servedRegenerated "quotation_INQ240101111_1700000009000.pdf" "inline") ∧
    (runSched c2builder "quotation-1700000002000-99.pdf" 0 c2sched c2init).req2 =
      RPhase.finished
        (Outcome.servedRegenerated "quotation_INQ240101111_1700000009000.pdf" "inline") := by
  decide

/-- Claim C2 as amended: there is no per-record rebuild lock and no
waiting: concurrent requests for the same unresolved artifact may each
invoke the builder.  Deduplication happens only through the store —
when the first rebuild writes the requested filename itself and the
second request only performs its existence check afterwards, the
builder runs exactly once and the second request is served from the
store. -/
theorem c2_rebuild_dedup_amended (builder : Builder) (db : DB) (store : List String)
    (f : String) (now : Nat) (q : Quotation) (tried : Nat) (inq : Inquiry)
    (h : f ∉ store)
    (hl : locateQuotation db f = (some q, tried))
    (hi : findInquiryFor db q = some inq)
    (hb : builder inq (pdfQuotationData q inq now) =
      Except.ok { fileName := f, created := true }) :
    (runSched builder f now [true, true, true, true, false]
        { shared := { store := store, db := db, builderCalls := 0 }
          req1 := RPhase.start, req2 := RPhase.start }).shared.builderCalls = 1 ∧
    (runSched builder f now [true, true, true, true, false]
        { shared := { store := store, db := db, builderCalls := 0 }
          req1 := RPhase.start, req2 := RPhase.start }).req1 =
      RPhase.finished (Outcome.servedRegenerated f "inline") ∧
    (runSched builder f now [true, true, true, true, false]
        { shared := { store := store, db := db, builderCalls := 0 }
          req1 := RPhase.start, req2 := RPhase.start }).req2 =
      RPhase.finished (Outcome.servedExisting f "inline") := by
  have h1 : (locateQuotation db f).1 = some q := by rw [hl]
  refine ⟨?_, ?_, ?_⟩ <;>
    simp [runSched, sysStep, reqStep, h, h1, hi, hb]

/-- Witness builder for the amended claim C2: writes the requested
filename itself. -/
def c2wbuilder : Builder :=
  fun _ _ => Except.ok { fileName := "quotation-1700000002000-99.pdf", created := true }

/-- Witness for the amended claim C2: with the canonical name equal to
the requested one and the second request running after the first, the
builder is invoked exactly once and the second request is served from
the store. -/
theorem c2_rebuild_dedup_amended_witness :
    (runSched c2wbuilder "quotation-1700000002000-99.pdf" 0 [true, true, true, true, false]
        { shared := { store := [], db := c2db, builderCalls := 0 }
          req1 := RPhase.start, req2 := RPhase.start }).shared.builderCalls = 1 ∧
    (runSched c2wbuilder "quotation-1700000002000-99.pdf" 0 [true, true, true, true, false]
        { shared := { store := [], db := c2db, builderCalls := 0 }
          req1 := RPhase.start, req2 := RPhase.start }).req2 =
      RPhase.finished (Outcome.servedExisting "quotation-1700000002000-99.pdf" "inline") := by
  have h := c2_rebuild_dedup_amended c2wbuilder c2db [] "quotation-1700000002000-99.pdf" 0
    c2q 4 c2inq (by decide) (by decide) (by decide) rfl
  exact ⟨h.1, h.2.2⟩

end QPdf
